import Mathlib

/-!
Verification development for the sensitivity-label subsystem of a
retrieval-augmented answering service.  The Python sources embedded here are
`app/backend/core/labelhelper.py` (label resolution, extraction from search
results, inheritance, badge formatting) and
`app/backend/approaches/retrievethenread.py` (the `_process_sensitivity_labels`
wrapper around that pipeline).

Modelling conventions:
* Python strings are Lean `String`s; the handful of Python string operations
  used by the code (`str.lower`, `str.replace`, slicing, `str.strip`) are
  re-implemented over `List Char` so that every definition reduces in the
  kernel.  `str.lower` is modelled with `Char.toLower` (ASCII case folding),
  which agrees with Python on all inputs the code deals with.
* Python `None` / absent dictionary keys become `Option.none`; Python
  truthiness on an optional string (`if value:`) is `value ≠ None ∧ value ≠ ""`.
* The external world of `_resolve_purview_label` (token acquisition and the
  Microsoft Graph HTTP call) is an oracle `String → LookupOutcome`.  The
  number of HTTP requests actually issued is tracked in an explicit
  `ResolverState` together with the class-level `_label_cache` dictionary.
* Numeric label priorities are `Nat` (the code and its data only ever use
  non-negative priorities, and the inheritance logic compares with `> 0`).
-/

/-! ## Python string primitives over `List Char` -/

/-- Helper for substring matching: if `pat` is a prefix of `l`, return the
remainder of `l` after `pat`, else `none`. -/
def stripPre : List Char → List Char → Option (List Char)
  | [], l => some l
  | _ :: _, [] => none
  | p :: ps, c :: cs => if c = p then stripPre ps cs else none

/-- Fuel-driven worker for `removeSubstr`; the fuel (initially the length of
the list) makes the recursion structural so the kernel can evaluate it. -/
def removeSubstrFuel (pat : List Char) : Nat → List Char → List Char
  | _, [] => []
  | 0, l => l
  | fuel + 1, c :: cs =>
    match stripPre pat (c :: cs) with
    | some rest => removeSubstrFuel pat fuel rest
    | none => c :: removeSubstrFuel pat fuel cs

/-- Model of Python `s.replace(pat, "")` for a non-empty pattern: remove every
occurrence of `pat`, scanning left to right. -/
def removeSubstr (pat : String) (s : List Char) : List Char :=
  if pat.toList.isEmpty then s else removeSubstrFuel pat.toList s.length s

/-- The brace characters stripped by Python `s.strip(chars)` in
`uuid.UUID`: an opening or closing curly brace. -/
def isBrace (c : Char) : Bool := c = Char.ofNat 123 || c = Char.ofNat 125

/-- Model of Python `s.strip(braces)`: drop leading and trailing brace
characters. -/
def stripBraces (s : List Char) : List Char :=
  ((s.dropWhile isBrace).reverse.dropWhile isBrace).reverse

/-- Hexadecimal digit test, as accepted by `int(hex, 16)` for a single
digit. -/
def isHexChar (c : Char) : Bool :=
  c.isDigit || ('a' ≤ c && c ≤ 'f') || ('A' ≤ c && c ≤ 'F')

/-- Model of Python `s.lower()` (ASCII case folding). -/
def pyLower (s : String) : String := String.mk (s.toList.map Char.toLower)

/-- Model of Python `s.replace(a, b)` for single characters `a`, `b`. -/
def replaceChar (a b : Char) (s : String) : String :=
  String.mk (s.toList.map (fun c => if c = a then b else c))

/-! ## Data model (`labelhelper.py`, dataclasses) -/

/-- The `SensitivityLabel` dataclass: a sensitivity label with metadata.
Every construction site of the Python code supplies all five fields, so the
dataclass defaults (`color="gray"`, `priority=0`) never apply and are not
modelled. -/
structure SensitivityLabel where
  id : String
  name : String
  display_name : String
  color : String
  priority : Nat
deriving DecidableEq, Repr

/-- The `DocumentLabel` dataclass: label information for one document. -/
structure DocumentLabel where
  document_id : String
  source_file : String
  label : SensitivityLabel
deriving DecidableEq, Repr

/-- The `ResponseSensitivity` dataclass: overall response sensitivity computed
from document labels. -/
structure ResponseSensitivity where
  overall_label : SensitivityLabel
  document_labels : List DocumentLabel
deriving DecidableEq, Repr

/-! ## The resolver `LabelHelper._resolve_purview_label` -/

/-- Outcome of the external world for one resolution attempt: either no access
token could be obtained (the code returns `None` before issuing any HTTP
request), or the Graph HTTP call is issued and yields a 200 response with the
optional JSON fields `name`, `displayName`, `color`, `priority`
(`none` = field absent), a non-success HTTP status, or a raised exception
(transport error / timeout), which the code catches. -/
inductive LookupOutcome where
  | noToken : LookupOutcome
  | ok (name displayName color : Option String) (priority : Option Nat) : LookupOutcome
  | httpError (status : Nat) : LookupOutcome
  | exn : LookupOutcome
deriving DecidableEq, Repr

/-- Resolver-visible mutable state: the class-level `_label_cache` dictionary
(GUID → label), and a count of external HTTP lookups issued so far (the latter
is ghost state used to reason about how many Graph calls the code makes). -/
structure ResolverState where
  cache : List (String × SensitivityLabel)
  calls : Nat
deriving DecidableEq, Repr

/-- Construction of the resolved label from a 200 response
(`labelhelper.py` lines 135-154):
`label_name = label_data.get('name', f'Label-{label_id[:8]}')`,
`display_name = raw_display_name if raw_display_name else label_name`
(Python truthiness: `None` and `""` both fall back to `label_name`),
`api_color = label_data.get('color', '#808080')`,
`priority = label_data.get('priority', 0)`. -/
def buildResolvedLabel (labelId : String)
    (name displayName color : Option String) (priority : Option Nat) :
    SensitivityLabel :=
  let label_name := name.getD ("Label-" ++ labelId.take 8)
  let display_name :=
    match displayName with
    | some d => if d = "" then label_name else d
    | none => label_name
  { id := labelId
    name := label_name
    display_name := display_name
    color := color.getD "#808080"
    priority := priority.getD 0 }

/-- The body of `LabelHelper._resolve_purview_label` (lines 82-177).  The
cache lookup at lines 93-96 and the cache insertion at lines 156-158 are
commented out in the source ("Cache disabled for immediate priority
updates"), so the cache component of the state is neither read nor written.
The HTTP call counter is incremented exactly when the `session.get` request
is issued, i.e. in every branch except the early `return None` taken when no
credential is available (lines 109-111).  All failure branches — non-200
status (lines 162-173) and any caught exception (lines 175-177) — return
`none`; the function never propagates an exception. -/
def resolve_purview_label (lookup : String → LookupOutcome) (labelId : String)
    (st : ResolverState) : Option SensitivityLabel × ResolverState :=
  match lookup labelId with
  | .noToken => (none, st)
  | .ok name displayName color priority =>
      (some (buildResolvedLabel labelId name displayName color priority),
       { st with calls := st.calls + 1 })
  | .httpError _ => (none, { st with calls := st.calls + 1 })
  | .exn => (none, { st with calls := st.calls + 1 })

/-- Decision `LookupOutcome` is a failure: every outcome other than a 200
response (non-success status, transport error / timeout, missing token). -/
def LookupOutcome.isFailure : LookupOutcome → Bool
  | .ok _ _ _ _ => false
  | _ => true

/-! ## GUID test and label construction from strings -/

/-- The `LabelHelper._is_guid` check (lines 231-237) delegates to Python
`uuid.UUID(value)`.  `uuid.UUID` normalises the string by removing every
occurrence of `"urn:"` and `"uuid:"`, stripping curly braces from both ends
and removing hyphens, then requires exactly 32 characters parsed by
`int(hex, 16)`.  We model the digit check as "all 32 characters are hex
digits"; the residual leniencies of Python `int` (an embedded sign, leading
or trailing whitespace, a `0x` prefix or underscores inside the 32
characters) are not modelled. -/
def is_guid (value : String) : Bool :=
  let hex := removeSubstr "uuid:" (removeSubstr "urn:" value.toList)
  let hex := (stripBraces hex).filter (fun c => c ≠ '-')
  hex.length == 32 && hex.all isHexChar

/-- The `LabelHelper._create_label_from_string` method (lines 239-247):
`id = label_name.lower().replace(" ", "-")`, name and display name are the
literal string, color `"orange"`, priority `0`. -/
def create_label_from_string (label_name : String) : SensitivityLabel :=
  { id := replaceChar ' ' '-' (pyLower label_name)
    name := label_name
    display_name := label_name
    color := "orange"
    priority := 0 }

/-- The fallback label built inline in `extract_labels_from_search_results`
(lines 208-215) when a GUID fails to resolve: id is the raw value, name and
display name embed the first 8 characters of the identifier, color
`"orange"`, priority `0`. -/
def guidFallbackLabel (effective_label : String) : SensitivityLabel :=
  { id := effective_label
    name := "Purview Label (" ++ effective_label.take 8 ++ "...)"
    display_name := "Purview Label (ID: " ++ effective_label.take 8 ++ "...)"
    color := "orange"
    priority := 0 }

/-! ## The extractor `LabelHelper.extract_labels_from_search_results` -/

/-- One search-result dictionary as consumed by the extractor.  `none` models
an absent key or a `None` value (both behave identically under the `.get` /
truthiness patterns the code uses on these fields). -/
structure SearchDoc where
  id : Option String
  sourcefile : Option String
  source_file : Option String
  metadata_storage_name : Option String
  metadata_sensitivity_label : Option String
deriving DecidableEq, Repr

/-- Python `a or default` for an optional string `a`: a present, non-empty
string wins, otherwise fall through to the default. -/
def orTruthy (o : Option String) (default : String) : String :=
  match o with
  | some s => if s = "" then default else s
  | none => default

/-- Document id of a search result (line 186):
`result.get("id", f"unknown_{i}")` for the document at position `i`. -/
def docId (i : Nat) (d : SearchDoc) : String :=
  d.id.getD ("unknown_" ++ toString i)

/-- Source file of a search result (lines 188-193):
`result.get("sourcefile") or result.get("source_file") or
result.get("metadata_storage_name") or "unknown"`. -/
def docSourceFile (d : SearchDoc) : String :=
  orTruthy d.sourcefile
    (orTruthy d.source_file (orTruthy d.metadata_storage_name "unknown"))

/-- Python truthiness of the raw sensitivity-label field (`if effective_label:`
at line 203): present and non-empty. -/
def hasLabelField (d : SearchDoc) : Bool :=
  match d.metadata_sensitivity_label with
  | some s => !(s = "")
  | none => false

/-- The per-document label computation of the extractor loop body
(lines 200-219) for a truthy raw value `effective_label`: if the value is a
GUID and Graph resolution is enabled, resolve it (falling back to
`guidFallbackLabel` when resolution returns `None`); otherwise build a label
from the literal string.  The resolver side effects are irrelevant to the
emitted label, so the oracle here is just the resulting
`Option SensitivityLabel`. -/
def processEffectiveLabel (resolve : String → Option SensitivityLabel)
    (enable_graph : Bool) (effective_label : String) : SensitivityLabel :=
  if is_guid effective_label && enable_graph then
    match resolve effective_label with
    | some l => l
    | none => guidFallbackLabel effective_label
  else
    create_label_from_string effective_label

/-- The extractor loop (lines 183-229) starting at enumeration index `i`:
skip documents whose raw label field is absent or empty, otherwise append one
`DocumentLabel`. -/
def extractLabelsFrom (resolve : String → Option SensitivityLabel)
    (enable_graph : Bool) : Nat → List SearchDoc → List DocumentLabel
  | _, [] => []
  | i, d :: rest =>
    match d.metadata_sensitivity_label with
    | some s =>
        if s = "" then extractLabelsFrom resolve enable_graph (i + 1) rest
        else
          { document_id := docId i d
            source_file := docSourceFile d
            label := processEffectiveLabel resolve enable_graph s } ::
            extractLabelsFrom resolve enable_graph (i + 1) rest
    | none => extractLabelsFrom resolve enable_graph (i + 1) rest

/-- `LabelHelper.extract_labels_from_search_results` (lines 179-229):
enumerate the search results from index 0. -/
def extract_labels_from_search_results
    (resolve : String → Option SensitivityLabel) (enable_graph : Bool)
    (search_results : List SearchDoc) : List DocumentLabel :=
  extractLabelsFrom resolve enable_graph 0 search_results

/-- The flag computed in `LabelHelper.__init__` (line 54):
`os.getenv("ENABLE_GRAPH_LABEL_RESOLUTION", "true").lower() == "true"`.
`none` models an unset environment variable. -/
def enableGraphFromEnv (v : Option String) : Bool :=
  pyLower (v.getD "true") == "true"

/-! ## The inheritance computation `compute_label_inheritance` -/

/-- Stable descending insertion for `pySortedDesc`: the inserted element
comes from earlier in the input than everything already in the list, so on an
equal priority it is placed first. -/
def insertDesc (x : DocumentLabel) : List DocumentLabel → List DocumentLabel
  | [] => [x]
  | y :: ys =>
    if y.label.priority ≤ x.label.priority then x :: y :: ys
    else y :: insertDesc x ys

/-- Model of Python
`sorted(labels, key=lambda dl: dl.label.priority, reverse=True)` (line 275):
a stable sort into non-increasing priority order. -/
def pySortedDesc : List DocumentLabel → List DocumentLabel
  | [] => []
  | x :: xs => insertDesc x (pySortedDesc xs)

/-- `LabelHelper.compute_label_inheritance` (lines 249-290): empty input
yields `None`; otherwise, if some label has priority above 0, the head of the
stably-descending-sorted sub-list of such labels is chosen, else the first
document's label; the full input list is carried along unchanged. -/
def compute_label_inheritance (document_labels : List DocumentLabel) :
    Option ResponseSensitivity :=
  match document_labels with
  | [] => none
  | first :: _ =>
    let labels_with_priority :=
      document_labels.filter (fun dl => 0 < dl.label.priority)
    match pySortedDesc labels_with_priority with
    | chosen :: _ =>
        some { overall_label := chosen.label, document_labels := document_labels }
    | [] =>
        some { overall_label := first.label, document_labels := document_labels }

/-! ## Badge formatting and the `_process_sensitivity_labels` wrapper -/

/-- Return value of `LabelHelper.get_sensitivity_badge_info`. -/
structure BadgeInfo where
  text : String
  color : String
  priority : Nat
  id : String
  icon : String
deriving DecidableEq, Repr

/-- `LabelHelper.get_sensitivity_badge_info` (lines 292-300): the icon is one
fixed token for every label (the source file holds a lock glyph literal). -/
def get_sensitivity_badge_info (label : SensitivityLabel) : BadgeInfo :=
  { text := label.display_name
    color := label.color
    priority := label.priority
    id := label.id
    icon := "lock" }

/-- Frontend label payload.  The class `SensitivityLabelInfo` is declared in
`approaches/approach.py`, which is not among the embedded sources; its fields
are read off the constructor calls in `retrievethenread.py` lines 290-311. -/
structure SensitivityLabelInfo where
  id : String
  name : String
  display_name : String
  color : String
  icon : String
deriving DecidableEq, Repr

/-- Frontend per-document payload (constructor call at
`retrievethenread.py` lines 297-301). -/
structure DocumentLabelInfo where
  document_id : String
  source_file : String
  label : SensitivityLabelInfo
deriving DecidableEq, Repr

/-- Frontend response payload (constructor call at
`retrievethenread.py` lines 313-316). -/
structure ResponseSensitivityInfo where
  overall_label : SensitivityLabelInfo
  document_labels : List DocumentLabelInfo
deriving DecidableEq, Repr

/-- The frontend conversion performed inline in `_process_sensitivity_labels`
(lines 287-311): each label is paired with its badge info. -/
def toLabelInfo (l : SensitivityLabel) : SensitivityLabelInfo :=
  let badge := get_sensitivity_badge_info l
  { id := l.id
    name := l.name
    display_name := l.display_name
    color := badge.color
    icon := badge.icon }

/-- The frontend formatting step of `_process_sensitivity_labels`
(lines 286-316). -/
def formatSensitivity (rs : ResponseSensitivity) : ResponseSensitivityInfo :=
  { overall_label := toLabelInfo rs.overall_label
    document_labels := rs.document_labels.map
      (fun dl => { document_id := dl.document_id
                   source_file := dl.source_file
                   label := toLabelInfo dl.label }) }

/-- `RetrieveThenReadApproach._process_sensitivity_labels`
(`retrievethenread.py` lines 255-322).  The whole body sits in one
`try/except` whose handler returns `None`, so each constituent step — the
dict conversion loop, `extract_labels_from_search_results`,
`compute_label_inheritance` and the frontend formatting — is modelled as a
fallible (`Except`) computation, and a raise anywhere collapses the result to
`none`.  The two explicit early exits of the source are kept: extraction
producing no labels returns `none` (line 277), and an absent
`response_sensitivity` returns `none` (line 283). -/
def process_sensitivity_labels {α : Type}
    (convert : List α → Except String (List SearchDoc))
    (extract : List SearchDoc → Except String (List DocumentLabel))
    (compute : List DocumentLabel → Except String (Option ResponseSensitivity))
    (format : ResponseSensitivity → Except String ResponseSensitivityInfo)
    (results : List α) : Option ResponseSensitivityInfo :=
  match convert results with
  | .error _ => none
  | .ok docs =>
    match extract docs with
    | .error _ => none
    | .ok document_labels =>
      if document_labels.isEmpty then none
      else
        match compute document_labels with
        | .error _ => none
        | .ok none => none
        | .ok (some response_sensitivity) =>
          match format response_sensitivity with
          | .error _ => none
          | .ok info => some info

/-! ## Specification-side helpers and concrete inputs used by the theorems -/

/-- First maximum of a list of document labels: the earliest element whose
priority is maximal (used to characterise the head of the stable descending
sort). -/
def firstMax : List DocumentLabel → Option DocumentLabel
  | [] => none
  | x :: xs =>
    match firstMax xs with
    | none => some x
    | some y => if y.label.priority ≤ x.label.priority then some x else some y

/-- The document label the extractor emits for the document at enumeration
index `i`, assuming its raw label field is truthy. -/
def mkDocLabel (resolve : String → Option SensitivityLabel)
    (enable_graph : Bool) (i : Nat) (d : SearchDoc) : DocumentLabel :=
  { document_id := docId i d
    source_file := docSourceFile d
    label := processEffectiveLabel resolve enable_graph
      (d.metadata_sensitivity_label.getD "") }

/-- A syntactically valid Purview label GUID used as a concrete input. -/
def exampleGuid : String := "12345678-1234-1234-1234-123456789abc"

/-- An oracle under which every lookup issues a 200 response with full
metadata. -/
def okLookup : String → LookupOutcome :=
  fun _ => .ok (some "Secret") (some "Secret") (some "red") (some 5)

/-- An oracle under which every lookup fails with HTTP 404. -/
def errLookup : String → LookupOutcome := fun _ => .httpError 404

/-- A resolver oracle that fails on every identifier. -/
def noResolve : String → Option SensitivityLabel := fun _ => none

/-- A resolver oracle that succeeds on every identifier. -/
def someResolve : String → Option SensitivityLabel :=
  fun g => some (buildResolvedLabel g (some "Secret") none none (some 3))

/-- Concrete document label "A" with priority 0. -/
def dlA : DocumentLabel :=
  { document_id := "doc1", source_file := "a.pdf"
    label := { id := "a", name := "A", display_name := "A"
               color := "orange", priority := 0 } }

/-- Concrete document label "B" with priority 5. -/
def dlB : DocumentLabel :=
  { document_id := "doc2", source_file := "b.pdf"
    label := { id := "b", name := "B", display_name := "B"
               color := "orange", priority := 5 } }

/-- Concrete document label "C" with priority 5, occurring after "B". -/
def dlC : DocumentLabel :=
  { document_id := "doc3", source_file := "c.pdf"
    label := { id := "c", name := "C", display_name := "C"
               color := "orange", priority := 5 } }

/-- Concrete document label "D" with priority 0. -/
def dlD : DocumentLabel :=
  { document_id := "doc4", source_file := "d.pdf"
    label := { id := "d", name := "D", display_name := "D"
               color := "orange", priority := 0 } }

/-- A concrete search result carrying the GUID label value. -/
def guidDoc : SearchDoc :=
  { id := some "doc-g", sourcefile := some "g.pdf", source_file := none
    metadata_storage_name := none
    metadata_sensitivity_label := some exampleGuid }

/-- A concrete search result with no sensitivity-label field. -/
def unlabeledDoc : SearchDoc :=
  { id := some "doc-u", sourcefile := some "u.pdf", source_file := none
    metadata_storage_name := none, metadata_sensitivity_label := none }

/-- A concrete search result with a literal string label. -/
def plainDoc : SearchDoc :=
  { id := some "doc-p", sourcefile := some "p.pdf", source_file := none
    metadata_storage_name := none
    metadata_sensitivity_label := some "Confidential" }

/-! ## Helper lemmas -/

/-- A head of the stable descending insertion: the inserted element wins
exactly when its priority is at least that of the current head. -/
theorem head_insertDesc (x y : DocumentLabel) (ys : List DocumentLabel) :
    (insertDesc x (y :: ys)).head? =
      some (if y.label.priority ≤ x.label.priority then x else y) := by
  by_cases h : y.label.priority ≤ x.label.priority <;> simp [insertDesc, h]

/-- The head of the stable descending sort is the earliest maximal element. -/
theorem head_pySortedDesc (l : List DocumentLabel) :
    (pySortedDesc l).head? = firstMax l := by
  induction l with
  | nil => rfl
  | cons x xs ih =>
    simp only [pySortedDesc, firstMax]
    cases h : pySortedDesc xs with
    | nil =>
      rw [h] at ih
      simp only [List.head?] at ih
      rw [← ih]
      simp [insertDesc]
    | cons y ys =>
      rw [h] at ih
      simp only [List.head?] at ih
      rw [← ih, head_insertDesc]
      by_cases hp : y.label.priority ≤ x.label.priority <;> simp [hp]

/-- An empty first maximum forces an empty list. -/
theorem firstMax_eq_none {l : List DocumentLabel} (h : firstMax l = none) :
    l = [] := by
  cases l with
  | nil => rfl
  | cons a as =>
    simp only [firstMax] at h
    cases h2 : firstMax as with
    | none => rw [h2] at h; simp at h
    | some z =>
      rw [h2] at h
      by_cases hp : z.label.priority ≤ a.label.priority <;> simp [hp] at h

/-- Characterisation of the first maximum: it splits the list so that every
earlier element has strictly smaller priority and every element at all has
priority at most the maximum. -/
theorem firstMax_spec (l : List DocumentLabel) (y : DocumentLabel)
    (hy : firstMax l = some y) :
    ∃ pre post, l = pre ++ y :: post ∧
      (∀ x ∈ pre, x.label.priority < y.label.priority) ∧
      (∀ x ∈ l, x.label.priority ≤ y.label.priority) := by
  induction l generalizing y with
  | nil => simp [firstMax] at hy
  | cons a as ih =>
    simp only [firstMax] at hy
    cases h : firstMax as with
    | none =>
      rw [h] at hy
      have hy2 : some a = some y := hy
      have ha : a = y := by injection hy2
      subst ha
      have has : as = [] := firstMax_eq_none h
      subst has
      exact ⟨[], [], rfl, by simp, by simp⟩
    | some z =>
      rw [h] at hy
      have hy2 : (if z.label.priority ≤ a.label.priority then some a else some z) =
          some y := hy
      by_cases hp : z.label.priority ≤ a.label.priority
      · rw [if_pos hp] at hy2
        have ha : a = y := by injection hy2
        subst ha
        obtain ⟨pre, post, heq, hpre, hall⟩ := ih z h
        refine ⟨[], as, rfl, by simp, ?_⟩
        intro x hx
        rcases List.mem_cons.mp hx with hx | hx
        · rw [hx]
        · exact le_trans (hall x hx) hp
      · rw [if_neg hp] at hy2
        have hz : z = y := by injection hy2
        subst hz
        obtain ⟨pre, post, heq, hpre, hall⟩ := ih z h
        refine ⟨a :: pre, post, by rw [heq]; rfl, ?_, ?_⟩
        · intro x hx
          rcases List.mem_cons.mp hx with hx | hx
          · rw [hx]; exact lt_of_not_le hp
          · exact hpre x hx
        · intro x hx
          rcases List.mem_cons.mp hx with hx | hx
          · rw [hx]; exact le_of_lt (lt_of_not_le hp)
          · exact hall x hx

/-- Unfolding of the inheritance computation on a non-empty input whose
priority-filtered sub-list sorts to a non-empty list. -/
theorem compute_cons_chosen (d : DocumentLabel) (ds : List DocumentLabel)
    (chosen : DocumentLabel) (t : List DocumentLabel)
    (h : pySortedDesc ((d :: ds).filter (fun dl => 0 < dl.label.priority)) =
      chosen :: t) :
    compute_label_inheritance (d :: ds) =
      some { overall_label := chosen.label, document_labels := d :: ds } := by
  simp only [compute_label_inheritance]
  rw [h]

/-- The extractor loop, expressed as a filter-then-map over the enumerated
input: exactly the documents with a truthy raw label field contribute, in
input order, starting at index `i`. -/
theorem extractLabelsFrom_eq (resolve : String → Option SensitivityLabel)
    (enable_graph : Bool) (i : Nat) (docs : List SearchDoc) :
    extractLabelsFrom resolve enable_graph i docs =
      ((docs.enumFrom i).filter (fun p => hasLabelField p.2)).map
        (fun p => mkDocLabel resolve enable_graph p.1 p.2) := by
  induction docs generalizing i with
  | nil => rfl
  | cons d rest ih =>
    simp only [extractLabelsFrom, List.enumFrom]
    cases hd : d.metadata_sensitivity_label with
    | none =>
      simp [List.filter_cons, hasLabelField, hd, ih]
    | some s =>
      by_cases hs : s = ""
      · simp [List.filter_cons, hasLabelField, hd, hs, ih]
      · simp [List.filter_cons, hasLabelField, hd, hs, ih, mkDocLabel]

/-- Length of the filtered enumeration agrees with the length of the plain
filtered list. -/
theorem enumFrom_filter_length (p : SearchDoc → Bool) (i : Nat)
    (docs : List SearchDoc) :
    ((docs.enumFrom i).filter (fun q => p q.2)).length =
      (docs.filter p).length := by
  induction docs generalizing i with
  | nil => rfl
  | cons d rest ih =>
    by_cases h : p d <;> simp [List.enumFrom, List.filter_cons, h, ih]

/-- With Graph resolution disabled, the extractor output does not depend on
the resolver oracle at all. -/
theorem extract_resolver_independent
    (r r2 : String → Option SensitivityLabel) (i : Nat)
    (docs : List SearchDoc) :
    extractLabelsFrom r false i docs = extractLabelsFrom r2 false i docs := by
  induction docs generalizing i with
  | nil => rfl
  | cons d rest ih =>
    simp only [extractLabelsFrom]
    cases hd : d.metadata_sensitivity_label with
    | none => exact ih _
    | some s =>
      by_cases hs : s = ""
      · simp [hs, ih]
      · simp [hs, ih, processEffectiveLabel]

/-! ## Claim C1 -/

/-- Claim C1 counterexample.  The claim states that after one successful
resolution, a second resolution of the same identifier within the TTL window
issues no new external lookup (external call count stays at 1).  In the code
the cache lookup is commented out ("Cache disabled for immediate priority
updates"), so resolving the same identifier twice from a fresh state issues
two external Graph calls: the call count is 2, refuting "at most once per
identifier". -/
theorem C1_cache_claim_false :
    (resolve_purview_label okLookup exampleGuid
        ((resolve_purview_label okLookup exampleGuid
          { cache := [], calls := 0 }).2)).2.calls = 2 ∧
    ¬ (resolve_purview_label okLookup exampleGuid
        ((resolve_purview_label okLookup exampleGuid
          { cache := [], calls := 0 }).2)).2.calls ≤ 1 := by
  constructor <;> decide

/-- Claim C1 (amended): caching is disabled in the code, so every resolver
call whose lookup reaches the HTTP request — in particular every call for an
identifier that has already been resolved successfully — issues exactly one
new external lookup and leaves the cache untouched; the repeated call does
return an identical label, because the result depends only on the external
response for the identifier, not on the resolver state. -/
theorem C1_resolver_always_issues_lookup
    (lookup : String → LookupOutcome) (labelId : String)
    (st st2 : ResolverState)
    (h : (lookup labelId).isFailure = false) :
    (resolve_purview_label lookup labelId st).2.calls = st.calls + 1 ∧
    (resolve_purview_label lookup labelId st).2.cache = st.cache ∧
    (resolve_purview_label lookup labelId st).1 =
      (resolve_purview_label lookup labelId st2).1 := by
  cases hl : lookup labelId with
  | ok name displayName color priority =>
      exact ⟨by simp [resolve_purview_label, hl],
             by simp [resolve_purview_label, hl],
             by simp [resolve_purview_label, hl]⟩
  | noToken => rw [hl] at h; simp [LookupOutcome.isFailure] at h
  | httpError s => rw [hl] at h; simp [LookupOutcome.isFailure] at h
  | exn => rw [hl] at h; simp [LookupOutcome.isFailure] at h

/-- Claim C1 witness: the amended theorem applied to a concrete successful
oracle, a concrete GUID and two different concrete states. -/
theorem C1_resolver_always_issues_lookup_witness :
    (okLookup exampleGuid).isFailure = false ∧
    ((resolve_purview_label okLookup exampleGuid
        { cache := [], calls := 0 }).2.calls =
        ({ cache := [], calls := 0 } : ResolverState).calls + 1 ∧
      (resolve_purview_label okLookup exampleGuid
        { cache := [], calls := 0 }).2.cache =
        ({ cache := [], calls := 0 } : ResolverState).cache ∧
      (resolve_purview_label okLookup exampleGuid
        { cache := [], calls := 0 }).1 =
        (resolve_purview_label okLookup exampleGuid
          { cache := [], calls := 7 }).1) :=
  ⟨by decide,
   C1_resolver_always_issues_lookup okLookup exampleGuid
     { cache := [], calls := 0 } { cache := [], calls := 7 } (by decide)⟩

/-! ## Claim C2 -/

/-- Claim C2 counterexample.  The claim states that a failed lookup caches
`None` for the identifier.  After a 404 failure starting from an empty cache,
the cache is still empty — no entry (a `None` sentinel or otherwise) is
stored for the identifier, because the cache-write lines are commented out in
the source. -/
theorem C2_caches_none_claim_false :
    (resolve_purview_label errLookup exampleGuid
      { cache := [], calls := 0 }).1 = none ∧
    (resolve_purview_label errLookup exampleGuid
      { cache := [], calls := 0 }).2.cache = [] ∧
    List.lookup exampleGuid
      ((resolve_purview_label errLookup exampleGuid
        { cache := [], calls := 0 }).2.cache) = none := by
  refine ⟨rfl, rfl, rfl⟩

/-- Claim C2 (amended): on every non-success lookup outcome (non-200 status,
transport error or timeout, and also a missing token) the resolver returns
`None` and never raises — absence is the only failure signal — but it does
not cache anything: the cache is left exactly as it was. -/
theorem C2_failure_returns_none_without_caching
    (lookup : String → LookupOutcome) (labelId : String) (st : ResolverState)
    (h : (lookup labelId).isFailure = true) :
    (resolve_purview_label lookup labelId st).1 = none ∧
    (resolve_purview_label lookup labelId st).2.cache = st.cache := by
  cases hl : lookup labelId with
  | ok name displayName color priority =>
      rw [hl] at h; simp [LookupOutcome.isFailure] at h
  | noToken => exact ⟨by simp [resolve_purview_label, hl],
                      by simp [resolve_purview_label, hl]⟩
  | httpError s => exact ⟨by simp [resolve_purview_label, hl],
                          by simp [resolve_purview_label, hl]⟩
  | exn => exact ⟨by simp [resolve_purview_label, hl],
                  by simp [resolve_purview_label, hl]⟩

/-- Claim C2 witness: the amended theorem applied to the concrete 404 oracle
at a concrete state. -/
theorem C2_failure_returns_none_without_caching_witness :
    (errLookup exampleGuid).isFailure = true ∧
    ((resolve_purview_label errLookup exampleGuid
        { cache := [], calls := 0 }).1 = none ∧
      (resolve_purview_label errLookup exampleGuid
        { cache := [], calls := 0 }).2.cache =
        ({ cache := [], calls := 0 } : ResolverState).cache) :=
  ⟨by decide,
   C2_failure_returns_none_without_caching errLookup exampleGuid
     { cache := [], calls := 0 } (by decide)⟩

/-! ## Claim C5 -/

/-- Claim C5 counterexample.  The claim requires the plain-string color token
to be distinct from the GUID-fallback color token; in the code both are the
string "orange", so the distinctness conjunct is false at the concrete input
"Confidential". -/
theorem C5_color_distinct_claim_false :
    (create_label_from_string "Confidential").color =
      (guidFallbackLabel exampleGuid).color := rfl

/-- Claim C5 (amended): for a raw label value that is not a syntactically
valid GUID, the extractor's per-document label computation emits exactly the
label synthesized by `_create_label_from_string`, whatever the resolver
oracle and the resolution flag (the guarded branch at line 205 requires the
GUID test to pass): a label whose id is the lower-cased, space-to-hyphen
slug of the string, whose name and display name are both the literal string,
and whose priority is 0 — with color "orange", which is the SAME token as
the GUID-fallback color, not a distinct one.  In particular "Confidential"
(not a GUID) yields id "confidential" and display name "Confidential". -/
theorem C5_plain_string_label_fields
    (resolve : String → Option SensitivityLabel) (enable_graph : Bool)
    (s g : String) (hs : is_guid s = false) :
    processEffectiveLabel resolve enable_graph s =
      create_label_from_string s ∧
    (create_label_from_string s).id = replaceChar ' ' '-' (pyLower s) ∧
    (create_label_from_string s).name = s ∧
    (create_label_from_string s).display_name = s ∧
    (create_label_from_string s).priority = 0 ∧
    (create_label_from_string s).color = (guidFallbackLabel g).color ∧
    (create_label_from_string "Confidential").id = "confidential" ∧
    (create_label_from_string "Confidential").display_name = "Confidential" ∧
    is_guid "Confidential" = false := by
  refine ⟨?_, rfl, rfl, rfl, rfl, rfl, by decide, rfl, by decide⟩
  simp [processEffectiveLabel, hs]

/-- Claim C5 witness: the theorem applied to the concrete non-GUID literal
"Confidential" with a resolver oracle that would succeed everywhere (so only
the non-GUID branch can explain the plain-string output) and resolution
enabled, plus the concrete end-to-end extractor run on the document carrying
that literal. -/
theorem C5_plain_string_label_fields_witness :
    is_guid "Confidential" = false ∧
    (processEffectiveLabel someResolve true "Confidential" =
        create_label_from_string "Confidential" ∧
      (create_label_from_string "Confidential").id =
        replaceChar ' ' '-' (pyLower "Confidential") ∧
      (create_label_from_string "Confidential").name = "Confidential" ∧
      (create_label_from_string "Confidential").display_name =
        "Confidential" ∧
      (create_label_from_string "Confidential").priority = 0 ∧
      (create_label_from_string "Confidential").color =
        (guidFallbackLabel exampleGuid).color ∧
      (create_label_from_string "Confidential").id = "confidential" ∧
      (create_label_from_string "Confidential").display_name =
        "Confidential" ∧
      is_guid "Confidential" = false) ∧
    extract_labels_from_search_results someResolve true [plainDoc] =
      [{ document_id := "doc-p", source_file := "p.pdf",
         label := create_label_from_string "Confidential" }] :=
  ⟨by decide,
   C5_plain_string_label_fields someResolve true "Confidential" exampleGuid
     (by decide),
   by decide⟩

/-! ## Claim C6 -/

/-- Claim C6 counterexample.  The claim requires the GUID-fallback label's
color to be distinct from the plain-string color token and its icon to be a
"warning" token.  At the concrete GUID with a failing resolver, the fallback
color equals the plain-string color ("orange"), and the badge icon equals
the badge icon of a plain-string label (the code uses one fixed icon for
every label), refuting both conjuncts. -/
theorem C6_fallback_distinct_claim_false :
    (processEffectiveLabel noResolve true exampleGuid).color =
      (create_label_from_string "Confidential").color ∧
    (get_sensitivity_badge_info
        (processEffectiveLabel noResolve true exampleGuid)).icon =
      (get_sensitivity_badge_info (create_label_from_string "Confidential")).icon := by
  constructor <;> decide

/-- Claim C6 (amended): for a raw label value that is a syntactically valid
GUID whose resolution returns `None` (with Graph resolution enabled), the
extractor emits the fallback label: id is the raw value, name and display
name embed the truncated 8-character preview of the identifier, priority 0 —
distinct in structure from a plain-string label, but with color "orange",
the SAME token as the plain-string color (though different from the success
default "#808080"), and with the badge icon that every label gets (there is
no separate warning icon). -/
theorem C6_guid_fallback_label
    (resolve : String → Option SensitivityLabel) (g s : String)
    (hg : is_guid g = true) (hr : resolve g = none) :
    processEffectiveLabel resolve true g = guidFallbackLabel g ∧
    (guidFallbackLabel g).id = g ∧
    (guidFallbackLabel g).name = "Purview Label (" ++ g.take 8 ++ "...)" ∧
    (guidFallbackLabel g).display_name =
      "Purview Label (ID: " ++ g.take 8 ++ "...)" ∧
    (guidFallbackLabel g).priority = 0 ∧
    (guidFallbackLabel g).color = (create_label_from_string s).color ∧
    (guidFallbackLabel g).color ≠ "#808080" ∧
    (get_sensitivity_badge_info (guidFallbackLabel g)).icon =
      (get_sensitivity_badge_info (create_label_from_string s)).icon := by
  refine ⟨?_, rfl, rfl, rfl, rfl, rfl,
    (by decide : ("orange" : String) ≠ "#808080"), rfl⟩
  simp [processEffectiveLabel, hg, hr]

/-- Claim C6 witness: the amended theorem applied to the concrete failing
resolver, the concrete GUID and the literal string "Confidential". -/
theorem C6_guid_fallback_label_witness :
    (is_guid exampleGuid = true ∧ noResolve exampleGuid = none) ∧
    (processEffectiveLabel noResolve true exampleGuid =
        guidFallbackLabel exampleGuid ∧
      (guidFallbackLabel exampleGuid).id = exampleGuid ∧
      (guidFallbackLabel exampleGuid).name =
        "Purview Label (" ++ exampleGuid.take 8 ++ "...)" ∧
      (guidFallbackLabel exampleGuid).display_name =
        "Purview Label (ID: " ++ exampleGuid.take 8 ++ "...)" ∧
      (guidFallbackLabel exampleGuid).priority = 0 ∧
      (guidFallbackLabel exampleGuid).color =
        (create_label_from_string "Confidential").color ∧
      (guidFallbackLabel exampleGuid).color ≠ "#808080" ∧
      (get_sensitivity_badge_info (guidFallbackLabel exampleGuid)).icon =
        (get_sensitivity_badge_info
          (create_label_from_string "Confidential")).icon) :=
  ⟨⟨by decide, rfl⟩,
   C6_guid_fallback_label noResolve exampleGuid "Confidential" (by decide) rfl⟩

/-! ## Claim C7 -/

/-- Claim C7 counterexample.  The claim states the display name is
omitted/None when the source response does not provide it.  The
`SensitivityLabel` dataclass field is a plain string and the code falls back
to the (possibly synthesized) name: for a 200 response with no fields, the
display name equals the name "Label-12345678" — it is not omitted. -/
theorem C7_display_name_claim_false :
    (buildResolvedLabel exampleGuid none none none none).display_name =
      (buildResolvedLabel exampleGuid none none none none).name ∧
    (buildResolvedLabel exampleGuid none none none none).display_name =
      "Label-12345678" := by
  constructor
  · rfl
  · decide

/-- Claim C7 (amended): on a successful external lookup the resolver returns
the label built from the response fields, where the name falls back to
"Label-" plus the first 8 characters of the identifier when the response
omits `name`; the display name falls back to the (possibly synthesized) name
when the response omits `displayName` (it is NOT omitted/None); the color
falls back to the default neutral "#808080" when absent; and the priority
falls back to 0 when absent. -/
theorem C7_resolved_label_field_fallbacks
    (lookup : String → LookupOutcome) (labelId : String) (st : ResolverState)
    (name displayName color : Option String) (priority : Option Nat)
    (h : lookup labelId = .ok name displayName color priority) :
    (resolve_purview_label lookup labelId st).1 =
      some (buildResolvedLabel labelId name displayName color priority) ∧
    (buildResolvedLabel labelId none displayName color priority).name =
      "Label-" ++ labelId.take 8 ∧
    (buildResolvedLabel labelId name none color priority).display_name =
      (buildResolvedLabel labelId name none color priority).name ∧
    (buildResolvedLabel labelId name displayName none priority).color =
      "#808080" ∧
    (buildResolvedLabel labelId name displayName color none).priority = 0 := by
  refine ⟨by simp [resolve_purview_label, h], ?_, rfl, rfl, rfl⟩
  cases name <;> rfl

/-- Claim C7 witness: the amended theorem applied to a concrete oracle whose
200 response carries no optional fields. -/
theorem C7_resolved_label_field_fallbacks_witness :
    (fun _ : String => LookupOutcome.ok none none none none) exampleGuid =
      .ok none none none none ∧
    ((resolve_purview_label (fun _ => .ok none none none none) exampleGuid
        { cache := [], calls := 0 }).1 =
        some (buildResolvedLabel exampleGuid none none none none) ∧
      (buildResolvedLabel exampleGuid none none none none).name =
        "Label-" ++ exampleGuid.take 8 ∧
      (buildResolvedLabel exampleGuid none none none none).display_name =
        (buildResolvedLabel exampleGuid none none none none).name ∧
      (buildResolvedLabel exampleGuid none none none none).color =
        "#808080" ∧
      (buildResolvedLabel exampleGuid none none none none).priority = 0) :=
  ⟨rfl,
   C7_resolved_label_field_fallbacks (fun _ => .ok none none none none)
     exampleGuid { cache := [], calls := 0 } none none none none rfl⟩

/-! ## Claim C3 -/

/-- Claim C3: for a non-empty list of document labels containing at least one
label with priority above 0, the inheritance computation chooses as overall
label the label of maximum priority, breaking ties in favour of the first
such label in input order (the stable descending sort preserves input order
on equal priorities), and carries the input list along unchanged. -/
theorem C3_max_priority_first_tie (dls : List DocumentLabel)
    (h : ∃ dl ∈ dls, 0 < dl.label.priority) :
    ∃ chosen pre post,
      compute_label_inheritance dls =
        some { overall_label := chosen.label, document_labels := dls } ∧
      dls.filter (fun dl => 0 < dl.label.priority) = pre ++ chosen :: post ∧
      (∀ x ∈ pre, x.label.priority < chosen.label.priority) ∧
      (∀ x ∈ dls, x.label.priority ≤ chosen.label.priority) := by
  obtain ⟨dl0, hmem, hpr⟩ := h
  cases dls with
  | nil => simp at hmem
  | cons d ds =>
    have hFne : (d :: ds).filter (fun dl => 0 < dl.label.priority) ≠ [] := by
      intro hnil
      have hin : dl0 ∈ (d :: ds).filter (fun dl => 0 < dl.label.priority) :=
        List.mem_filter.mpr ⟨hmem, by simpa using hpr⟩
      rw [hnil] at hin
      simp at hin
    have hfm : firstMax ((d :: ds).filter (fun dl => 0 < dl.label.priority)) ≠
        none := fun hn => hFne (firstMax_eq_none hn)
    obtain ⟨y, hy⟩ := Option.ne_none_iff_exists'.mp hfm
    have hhead :
        (pySortedDesc ((d :: ds).filter (fun dl => 0 < dl.label.priority))).head? =
          some y := by
      rw [head_pySortedDesc]; exact hy
    obtain ⟨t, ht⟩ :
        ∃ t, pySortedDesc ((d :: ds).filter (fun dl => 0 < dl.label.priority)) =
          y :: t := by
      cases hps : pySortedDesc ((d :: ds).filter (fun dl => 0 < dl.label.priority)) with
      | nil => rw [hps] at hhead; simp at hhead
      | cons a b =>
          rw [hps] at hhead
          simp only [List.head?] at hhead
          have ha : a = y := by injection hhead
          exact ⟨b, by rw [ha]⟩
    obtain ⟨pre, post, heq, hpre, hall⟩ := firstMax_spec _ y hy
    refine ⟨y, pre, post, compute_cons_chosen d ds y t ht, heq, hpre, ?_⟩
    intro x hx
    by_cases hp : 0 < x.label.priority
    · exact hall x (List.mem_filter.mpr ⟨hx, by simpa using hp⟩)
    · have hz : x.label.priority = 0 := Nat.eq_zero_of_not_pos hp
      rw [hz]
      exact Nat.zero_le _

/-- Claim C3 witness: the theorem applied to the concrete input
[A (priority 0), B (priority 5), C (priority 5)], together with the concrete
evaluation showing the chosen overall label is "B" — the first of the two
labels tied at the maximum priority. -/
theorem C3_max_priority_first_tie_witness :
    (∃ dl ∈ [dlA, dlB, dlC], 0 < dl.label.priority) ∧
    (∃ chosen pre post,
      compute_label_inheritance [dlA, dlB, dlC] =
        some { overall_label := chosen.label,
               document_labels := [dlA, dlB, dlC] } ∧
      [dlA, dlB, dlC].filter (fun dl => 0 < dl.label.priority) =
        pre ++ chosen :: post ∧
      (∀ x ∈ pre, x.label.priority < chosen.label.priority) ∧
      (∀ x ∈ [dlA, dlB, dlC], x.label.priority ≤ chosen.label.priority)) ∧
    compute_label_inheritance [dlA, dlB, dlC] =
      some { overall_label := dlB.label,
             document_labels := [dlA, dlB, dlC] } :=
  ⟨⟨dlB, by decide, by decide⟩,
   C3_max_priority_first_tie [dlA, dlB, dlC] ⟨dlB, by decide, by decide⟩,
   by decide⟩

/-! ## Claim C4 -/

/-- Claim C4: for a non-empty list of document labels in which no label has
priority above 0, the inheritance computation returns the first document's
label as the overall label, and the returned `ResponseSensitivity` carries
the full input list unchanged. -/
theorem C4_no_priority_first_document (d : DocumentLabel)
    (ds : List DocumentLabel)
    (h : ∀ x ∈ d :: ds, x.label.priority = 0) :
    compute_label_inheritance (d :: ds) =
      some { overall_label := d.label, document_labels := d :: ds } := by
  have hfilter : (d :: ds).filter (fun dl => 0 < dl.label.priority) = [] := by
    rw [List.filter_eq_nil_iff]
    intro a ha
    simp [h a ha]
  simp only [compute_label_inheritance]
  rw [hfilter]
  rfl

/-- Claim C4 witness: the theorem applied to the concrete input
[A (priority 0), D (priority 0)]; the overall label is A's, the first
document's, and the carried list is the input. -/
theorem C4_no_priority_first_document_witness :
    (∀ x ∈ [dlA, dlD], x.label.priority = 0) ∧
    compute_label_inheritance [dlA, dlD] =
      some { overall_label := dlA.label, document_labels := [dlA, dlD] } :=
  ⟨by decide, C4_no_priority_first_document dlA [dlD] (by decide)⟩

/-! ## Claim C8 -/

/-- Claim C8: the extractor emits no document label for a document whose raw
sensitivity-label field is absent or empty, emits exactly one document label
for every other document, and preserves the input order: its output is
exactly the filter of the enumerated input by label-field truthiness, mapped
through the per-document label construction, and its length is the number of
documents with a truthy label field. -/
theorem C8_extractor_order_and_skip
    (resolve : String → Option SensitivityLabel) (enable_graph : Bool)
    (docs : List SearchDoc) :
    extract_labels_from_search_results resolve enable_graph docs =
      ((docs.enum).filter (fun p => hasLabelField p.2)).map
        (fun p => mkDocLabel resolve enable_graph p.1 p.2) ∧
    (extract_labels_from_search_results resolve enable_graph docs).length =
      (docs.filter hasLabelField).length := by
  have h1 := extractLabelsFrom_eq resolve enable_graph 0 docs
  constructor
  · exact h1
  · show (extractLabelsFrom resolve enable_graph 0 docs).length = _
    rw [h1, List.length_map, enumFrom_filter_length]

/-! ## Claim C9 -/

/-- Claim C9: when the ENABLE_GRAPH_LABEL_RESOLUTION environment setting is
anything other than "true" case-insensitively, the constructed flag is false;
with the flag false the extractor output is independent of the resolver
oracle (the resolver is never consulted), and a syntactically valid GUID is
processed exactly like a literal string: the emitted label is the
plain-string label with the slugged id, the literal GUID text as name, and
priority 0. -/
theorem C9_resolution_disabled_plain_string
    (v : String) (r r2 : String → Option SensitivityLabel)
    (docs : List SearchDoc) (g : String)
    (hv : pyLower v ≠ "true") (hg : is_guid g = true) :
    enableGraphFromEnv (some v) = false ∧
    extract_labels_from_search_results r (enableGraphFromEnv (some v)) docs =
      extract_labels_from_search_results r2 (enableGraphFromEnv (some v)) docs ∧
    processEffectiveLabel r (enableGraphFromEnv (some v)) g =
      create_label_from_string g ∧
    (create_label_from_string g).name = g ∧
    (create_label_from_string g).priority = 0 := by
  have he : enableGraphFromEnv (some v) = false := by
    simp only [enableGraphFromEnv, Option.getD_some]
    exact beq_eq_false_iff_ne.mpr hv
  refine ⟨he, ?_, ?_, rfl, rfl⟩
  · rw [he]
    exact extract_resolver_independent r r2 0 docs
  · rw [he]
    simp [processEffectiveLabel]

/-- Claim C9 witness: the theorem applied to the concrete setting "False",
the concrete GUID document, and two oracles that differ everywhere (one
always fails, one always succeeds). -/
theorem C9_resolution_disabled_plain_string_witness :
    (pyLower "False" ≠ "true" ∧ is_guid exampleGuid = true) ∧
    (enableGraphFromEnv (some "False") = false ∧
      extract_labels_from_search_results noResolve
          (enableGraphFromEnv (some "False")) [guidDoc] =
        extract_labels_from_search_results someResolve
          (enableGraphFromEnv (some "False")) [guidDoc] ∧
      processEffectiveLabel noResolve (enableGraphFromEnv (some "False"))
          exampleGuid =
        create_label_from_string exampleGuid ∧
      (create_label_from_string exampleGuid).name = exampleGuid ∧
      (create_label_from_string exampleGuid).priority = 0) :=
  ⟨⟨by decide, by decide⟩,
   C9_resolution_disabled_plain_string "False" noResolve someResolve
     [guidDoc] exampleGuid (by decide) (by decide)⟩

/-! ## Claim C10 -/

/-- Claim C10: `_process_sensitivity_labels` never propagates an exception to
the answering flow.  Each step of its body — dict conversion, label
extraction, inheritance computation, frontend formatting — runs inside one
try/except whose handler returns `None`, so whenever any step raises the
result is `none`; and when extraction succeeds with an empty label list the
result is `none` as well. -/
theorem C10_process_never_raises {α : Type}
    (convert : List α → Except String (List SearchDoc))
    (extract : List SearchDoc → Except String (List DocumentLabel))
    (compute : List DocumentLabel → Except String (Option ResponseSensitivity))
    (format : ResponseSensitivity → Except String ResponseSensitivityInfo)
    (results : List α)
    (h : (∃ msg, convert results = .error msg) ∨
         (∃ docs msg, convert results = .ok docs ∧ extract docs = .error msg) ∨
         (∃ docs, convert results = .ok docs ∧ extract docs = .ok []) ∨
         (∃ docs dls msg, convert results = .ok docs ∧ extract docs = .ok dls ∧
            compute dls = .error msg) ∨
         (∃ docs dls rs msg, convert results = .ok docs ∧
            extract docs = .ok dls ∧ compute dls = .ok (some rs) ∧
            format rs = .error msg)) :
    process_sensitivity_labels convert extract compute format results =
      none := by
  rcases h with ⟨msg, hc⟩ | ⟨docs, msg, hc, he⟩ | ⟨docs, hc, he⟩ |
    ⟨docs, dls, msg, hc, he, hk⟩ | ⟨docs, dls, rs, msg, hc, he, hk, hf⟩
  · simp [process_sensitivity_labels, hc]
  · simp [process_sensitivity_labels, hc, he]
  · simp [process_sensitivity_labels, hc, he]
  · simp only [process_sensitivity_labels, hc, he]
    by_cases hd : dls.isEmpty <;> simp [hd, hk]
  · simp only [process_sensitivity_labels, hc, he]
    by_cases hd : dls.isEmpty <;> simp [hd, hk, hf]

/-- Claim C10 witness: the theorem applied to a concrete pipeline whose
conversion step raises. -/
theorem C10_process_never_raises_witness :
    process_sensitivity_labels
      (fun _ : List Nat => (Except.error "boom" : Except String (List SearchDoc)))
      (fun docs => Except.ok (extract_labels_from_search_results noResolve true docs))
      (fun dls => Except.ok (compute_label_inheritance dls))
      (fun rs => Except.ok (formatSensitivity rs)) [] = none :=
  C10_process_never_raises
    (fun _ : List Nat => (Except.error "boom" : Except String (List SearchDoc)))
    (fun docs => Except.ok (extract_labels_from_search_results noResolve true docs))
    (fun dls => Except.ok (compute_label_inheritance dls))
    (fun rs => Except.ok (formatSensitivity rs)) []
    (Or.inl ⟨"boom", rfl⟩)
